import Mathlib

/-!
Shallow embedding of the reservation scheduling core of the tsubasa-app
repository (time-slot generation, overlap detection, availability, quota
validation, and the reservation repository with its security checks).

Conventions of the embedding:
* an "HH:mm" time-of-day string is represented by its value in minutes since
  midnight (`getMinutesFromTimeString` in src/utils/timeUtils.ts is exactly
  this map); date-fns `parse` onto a common base date followed by
  `isBefore` / `isAfter` corresponds to `<` / `>` on these minute values,
  and `addHours(t, duration / 60)` to adding `duration` minutes;
* ISO timestamp strings (`new Date().toISOString()`) are represented by
  natural-number instants, which they are order-isomorphic to;
* JS numbers holding hour counts (durations divided by 60) are represented
  by rationals;
* asynchronous functions that can throw are represented as `Except` values:
  an `Except.error` result means the operation failed before producing or
  persisting anything, so an error result is also the statement that no
  write happened.
-/

/-- Minutes since midnight: the value of an "HH:mm" time string. -/
abbrev Minutes := Nat

/-- Minute value of the time string with hour `h` and minute `m`. -/
def hm (h m : Nat) : Minutes := h * 60 + m

/-- Two-digit zero padding, as in JS `padStart(2, "0")`. -/
def pad2 (n : Nat) : String := if n < 10 then "0" ++ toString n else toString n

/-- date-fns `format(t, "HH:mm")` of a time `t` minutes after midnight
(the hour field of a `Date` is the hour of day, hence the `% 24`). -/
def formatHM (t : Minutes) : String := pad2 (t / 60 % 24) ++ ":" ++ pad2 (t % 60)

/-- `TimeSlot` of src/utils/timeUtils.ts: start, end and a display label. -/
structure TimeSlot where
  startTime : Minutes
  endTime : Minutes
  label : String
deriving DecidableEq, Repr

/-- `BusinessHours` of src/utils/timeUtils.ts. The source fields are named
`open` and `close`; `open` is a Lean keyword, hence `openTime`/`closeTime`. -/
structure BusinessHours where
  openTime : Minutes
  closeTime : Minutes
deriving DecidableEq, Repr

/-- `DEFAULT_BUSINESS_HOURS = { open: "09:00", close: "18:00" }`. -/
def DEFAULT_BUSINESS_HOURS : BusinessHours := ⟨hm 9 0, hm 18 0⟩

/-- `LESSON_DURATION = 60` minutes. -/
def LESSON_DURATION : Nat := 60

/-- One slot pushed by the generator loop: `[cur, cur + d)` with the label
`"HH:mm - HH:mm"` built by `format`. -/
def mkTimeSlot (cur d : Nat) : TimeSlot :=
  ⟨cur, cur + d, formatHM cur ++ " - " ++ formatHM (cur + d)⟩

/-- Loop of `generateTimeSlots` (src/utils/timeUtils.ts lines 36-48): while
`currentTime + duration` is strictly `isBefore` `closeTime`, emit the slot
starting at `currentTime` and advance by `duration`. The source never
terminates when the duration is not positive, so the embedding also guards
on `0 < d`; every claim instantiates `d` with a positive duration. -/
def slotsFrom (closeT d cur : Nat) : List TimeSlot :=
  if _h : cur + d < closeT ∧ 0 < d then
    mkTimeSlot cur d :: slotsFrom closeT d (cur + d)
  else
    []
termination_by closeT - cur
decreasing_by omega

/-- `generateTimeSlots` (src/utils/timeUtils.ts lines 27-51). -/
def generateTimeSlots (businessHours : BusinessHours) (duration : Nat) : List TimeSlot :=
  slotsFrom businessHours.closeTime duration businessHours.openTime

/-- Closed form for the number of slots the loop emits from `cur`: the
number of `i ≥ 0` with `cur + (i + 1) * d < closeT`. -/
def numSlotsFrom (closeT d cur : Nat) : Nat := (closeT - cur + d - 1) / d - 1

/-- `isTimeOverlapping` (src/utils/timeUtils.ts lines 56-72):
`isAfter end1 start2 && isBefore start1 end2`. -/
def isTimeOverlapping (slot1Start slot1End slot2Start slot2End : Minutes) : Bool :=
  decide (slot2Start < slot1End) && decide (slot1Start < slot2End)

/-- `CourseUsage` of src/hooks/useCourses.ts (hour counts are JS numbers,
modelled as rationals). -/
structure CourseUsage where
  usedHours : ℚ
  remainingHours : ℚ
  totalHours : ℚ
  usagePercentage : ℚ
deriving DecidableEq, Repr

/-- `TimeValidation` of src/hooks/useCourses.ts. -/
structure TimeValidation where
  isValid : Bool
  message : String
  maxAllowedHours : ℚ
deriving DecidableEq, Repr

/-- Message of the missing-course-information branch of `validateReservationTime`. -/
def msgNoCourseInfo : String := "コース情報が取得できません"

/-- Message of the non-positive-duration branch of `validateReservationTime`. -/
def msgMinimumTime : String := "予約時間は1時間以上を指定してください"

/-- Message of the quota-exceeded branch of `validateReservationTime`,
interpolating the remaining hours. -/
def msgQuotaExceeded (remainingHours : ℚ) : String :=
  "月間利用可能時間を超えています。残り時間: " ++ toString remainingHours ++ "時間"

/-- Message of the success branch of `validateReservationTime`. -/
def msgOk : String := "予約可能です"

/-- `validateReservationTime` (src/hooks/useCourses.ts lines 48-78). In the
source `courseUsage` and `currentCourseInfo` are both derived from the same
profile and are null together, so the first guard is keyed on the optional
`courseUsage` alone. -/
def validateReservationTime (courseUsage : Option CourseUsage) (requestedHours : ℚ) :
    TimeValidation :=
  match courseUsage with
  | none => ⟨false, msgNoCourseInfo, 0⟩
  | some u =>
    if requestedHours ≤ 0 then
      ⟨false, msgMinimumTime, u.remainingHours⟩
    else if requestedHours > u.remainingHours then
      ⟨false, msgQuotaExceeded u.remainingHours, u.remainingHours⟩
    else
      ⟨true, msgOk, u.remainingHours⟩

/-- Reservation status: `'confirmed' | 'cancelled' | 'completed'`. -/
inductive ReservationStatus
  | confirmed
  | cancelled
  | completed
deriving DecidableEq, Repr

/-- Calendar date as stored (`YYYY-MM-DD`), with JS `getFullYear` /
`getMonth` / date components as fields. -/
structure DateYMD where
  year : Nat
  month : Nat
  day : Nat
deriving DecidableEq, Repr

/-- Reservation document as stored in the `reservations` collection (the
document id is kept separately as the store key). `createdAt`/`updatedAt`
are ISO timestamps, modelled as instants. -/
structure StoredReservation where
  studentId : String
  teacherId : String
  courseId : String
  date : DateYMD
  startTime : Minutes
  endTime : Minutes
  status : ReservationStatus
  notes : Option String
  createdAt : Nat
  updatedAt : Nat
deriving DecidableEq, Repr

/-- `calculateDuration` (src/utils/timeUtils.ts lines 139-143):
`endMinutes - startMinutes`, a JS number that can be negative. -/
def calculateDuration (startTime endTime : Minutes) : Int :=
  (endTime : Int) - (startTime : Int)

/-- `calculateMonthlyUsage` (src/hooks/useReservations.ts lines 140-157):
sum of `duration / 60` over the reservations whose date is in the current
month and year and whose status is `confirmed`. -/
def calculateMonthlyUsage (now : DateYMD) (reservations : List StoredReservation) : ℚ :=
  if reservations.isEmpty then 0
  else
    (reservations.filter (fun r =>
        r.date.month == now.month && r.date.year == now.year &&
          r.status == ReservationStatus.confirmed)).foldl
      (fun total r => total + (calculateDuration r.startTime r.endTime : ℚ) / 60) 0

/-- `updatedCourseUsage` (src/hooks/useReservations.ts lines 168-173): the
course usage with the freshly computed monthly used hours folded in. -/
def updatedCourseUsage (courseUsage : Option CourseUsage) (monthlyUsedHours : ℚ) :
    Option CourseUsage :=
  courseUsage.map (fun c =>
    ⟨monthlyUsedHours, c.totalHours - monthlyUsedHours, c.totalHours,
      monthlyUsedHours / c.totalHours * 100⟩)

/-- date-fns `isSameDay` on the stored calendar dates. -/
def isSameDay (a b : DateYMD) : Bool := a == b

/-- `dateReservations` of TimeSlotPicker (src/components/TimeSlotPicker.tsx
lines 27-34): the existing reservations that are confirmed and on the
selected day. -/
def dateReservations (selectedDate : DateYMD) (existingReservations : List StoredReservation) :
    List StoredReservation :=
  existingReservations.filter (fun r =>
    r.status == ReservationStatus.confirmed && isSameDay r.date selectedDate)

/-- `isTimeSlotBooked` (src/components/TimeSlotPicker.tsx lines 37-46). -/
def isTimeSlotBooked (dateRes : List StoredReservation) (timeSlot : TimeSlot) : Bool :=
  dateRes.any (fun r =>
    isTimeOverlapping timeSlot.startTime timeSlot.endTime r.startTime r.endTime)

/-- Rendered slot grid of `TimeSlotPicker` (src/components/TimeSlotPicker.tsx
lines 69-96): every generated slot is rendered, each with its booked flag;
a booked slot gets `disabled` but is not removed from the list. -/
def renderedSlots (selectedDate : DateYMD) (existingReservations : List StoredReservation) :
    List (TimeSlot × Bool) :=
  (generateTimeSlots DEFAULT_BUSINESS_HOURS LESSON_DURATION).map
    (fun s => (s, isTimeSlotBooked (dateReservations selectedDate existingReservations) s))

/-- `UserRole` (src/utils/roleUtils.ts). -/
inductive UserRole
  | student
  | parent
  | teacher
  | admin
deriving DecidableEq, Repr

/-- Acting identity: the Firebase auth uid together with the role resolved
from the `users` collection (`none` when that user document is missing, in
which case `isCurrentUserAdmin`/`isCurrentUserStaff` catch and answer
false). -/
structure Actor where
  uid : String
  role : Option UserRole
deriving DecidableEq, Repr

/-- `auth.currentUser`: `none` when nobody is signed in. -/
abbrev AuthCtx := Option Actor

/-- Error kinds of the data layer: `SecurityError` with its code
(PermissionError-kind), or a plain `Error` message (every non-security
throw is wrapped by `executeWithSecurity` into a generic operation
failure). -/
inductive OpError
  | securityError (code : String)
  | genericError (msg : String)
deriving DecidableEq, Repr

/-- `getCurrentAuthUser` (src/lib/auth/core.ts): throws `AUTH_REQUIRED` when
nobody is signed in. -/
def getCurrentAuthUser (ctx : AuthCtx) : Except OpError String :=
  match ctx with
  | none => .error (.securityError "AUTH_REQUIRED")
  | some a => .ok a.uid

/-- `isCurrentUserAdmin` (src/lib/auth/permissions.ts): role lookup,
answering false on any failure. -/
def isCurrentUserAdmin (ctx : AuthCtx) : Bool :=
  match ctx with
  | some a => a.role == some UserRole.admin
  | none => false

/-- `isCurrentUserStaff` (src/lib/auth/permissions.ts): admin or teacher,
answering false on any failure. -/
def isCurrentUserStaff (ctx : AuthCtx) : Bool :=
  match ctx with
  | some a => a.role == some UserRole.admin || a.role == some UserRole.teacher
  | none => false

/-- `canAccessReservationData` (src/lib/auth/permissions.ts lines 128-154):
the reservation's student, its teacher (the JS guard `teacherId && ...`
skips an absent or empty teacher id), or an admin; otherwise throws
`ACCESS_DENIED`. -/
def canAccessReservationData (ctx : AuthCtx) (studentId : String) (teacherId : Option String) :
    Except OpError Unit :=
  match getCurrentAuthUser ctx with
  | .error e => .error e
  | .ok uid =>
    if uid = studentId then .ok ()
    else if teacherId.getD "" ≠ "" ∧ uid = teacherId.getD "" then .ok ()
    else if isCurrentUserAdmin ctx then .ok ()
    else .error (.securityError "ACCESS_DENIED")

/-- `requireAdminAccess` (src/lib/auth/permissions.ts lines 160-168). -/
def requireAdminAccess (ctx : AuthCtx) : Except OpError Unit :=
  if isCurrentUserAdmin ctx then .ok () else .error (.securityError "ADMIN_REQUIRED")

/-- `requireStaffAccess` (src/lib/auth/permissions.ts lines 174-182). -/
def requireStaffAccess (ctx : AuthCtx) : Except OpError Unit :=
  if isCurrentUserStaff ctx then .ok () else .error (.securityError "STAFF_REQUIRED")

/-- The `reservations` collection: document id to document. -/
abbrev ReservationStore := List (String × StoredReservation)

/-- `getDoc` on the reservations collection. -/
def lookupReservation (store : ReservationStore) (rid : String) : Option StoredReservation :=
  (store.find? (fun p => p.1 == rid)).map (fun p => p.2)

/-- Partial reservation document, as a Firestore create/update payload:
`none` means the field is absent (JS `undefined` values are removed by
`convertToFirestore` before writing). -/
structure ReservationFields where
  studentId : Option String
  teacherId : Option String
  courseId : Option String
  date : Option DateYMD
  startTime : Option Minutes
  endTime : Option Minutes
  status : Option ReservationStatus
  notes : Option String
  createdAt : Option Nat
  updatedAt : Option Nat
deriving DecidableEq, Repr

/-- `ReservationsRepository.convertToFirestore`
(src/lib/database/reservations.ts lines 30-53): dates are serialised, a
payload lacking `createdAt` gets `createdAt := now`, and `updatedAt` is
always overwritten with `now` (the write time). -/
def convertToFirestore (now : Nat) (data : ReservationFields) : ReservationFields :=
  { data with createdAt := some (data.createdAt.getD now), updatedAt := some now }

/-- Firestore `updateDoc` merge of payload fields into an existing document
(a field present in the payload overwrites, an absent one is untouched). -/
def applyFields (r : StoredReservation) (f : ReservationFields) : StoredReservation :=
  ⟨f.studentId.getD r.studentId, f.teacherId.getD r.teacherId, f.courseId.getD r.courseId,
    f.date.getD r.date, f.startTime.getD r.startTime, f.endTime.getD r.endTime,
    f.status.getD r.status,
    (match f.notes with | some n => some n | none => r.notes),
    f.createdAt.getD r.createdAt, f.updatedAt.getD r.updatedAt⟩

/-- `updateDoc` on the store: merge the payload into the document with the
given id. -/
def updateStore (store : ReservationStore) (rid : String) (f : ReservationFields) :
    ReservationStore :=
  store.map (fun p => if p.1 == rid then (p.1, applyFields p.2 f) else p)

/-- `UpdateReservationStatusData` (src/types/updates.ts lines 38-42): it has
no `createdAt` member. -/
structure UpdateReservationStatusData where
  status : ReservationStatus
  notes : Option String
  updatedAt : Nat
deriving DecidableEq, Repr

/-- `createUpdateReservationStatusData` (src/types/updates.ts lines 141-150),
with the caller-side clock as `clientNow`. -/
def createUpdateReservationStatusData (status : ReservationStatus) (notes : Option String)
    (clientNow : Nat) : UpdateReservationStatusData :=
  ⟨status, notes, clientNow⟩

/-- The status-update payload as document fields: only `status`, optional
`notes` and `updatedAt`; in particular `createdAt` is absent. -/
def statusDataFields (d : UpdateReservationStatusData) : ReservationFields :=
  ⟨none, none, none, none, none, none, some d.status, d.notes, none, some d.updatedAt⟩

/-- Custom security check of `updateReservation` / `updateReservationStatus`
/ `updateReservationTime` (src/lib/database/reservations.ts lines 97-175):
re-fetch the current record and authorize against its own `studentId` and
`teacherId`, never against ids in the payload. A missing record throws a
plain error, which `executeWithSecurity` wraps into a generic operation
failure. -/
def updateSecurityCheck (ctx : AuthCtx) (store : ReservationStore) (rid : String) :
    Except OpError Unit :=
  match lookupReservation store rid with
  | none => .error (.genericError "reservations操作に失敗しました: 予約が見つかりません")
  | some r => canAccessReservationData ctx r.studentId (some r.teacherId)

/-- `BaseRepository.update` specialised to the reservations repository
(src/unnamed/part_011 lines 361-377 with the overridden converter): the
security check runs first; only then is the converted payload merged into
the document. An error result therefore means nothing was written. -/
def updateReservation (ctx : AuthCtx) (store : ReservationStore) (rid : String)
    (updates : ReservationFields) (now : Nat) : Except OpError ReservationStore :=
  match updateSecurityCheck ctx store rid with
  | .error e => .error e
  | .ok _ => .ok (updateStore store rid (convertToFirestore now updates))

/-- `updateReservationStatus` (src/lib/database/reservations.ts lines
138-154): the same re-fetch-and-authorize check followed by the generic
update with the status payload. Note that no check of the record's current
status is made anywhere. -/
def updateReservationStatus (ctx : AuthCtx) (store : ReservationStore) (rid : String)
    (statusData : UpdateReservationStatusData) (now : Nat) : Except OpError ReservationStore :=
  updateReservation ctx store rid (statusDataFields statusData) now

/-- Input of the repository's `createReservation`:
`Omit<Reservation, 'id' | 'createdAt' | 'updatedAt'>`. -/
structure CreateReservationInput where
  studentId : String
  teacherId : String
  courseId : String
  date : DateYMD
  startTime : Minutes
  endTime : Minutes
  status : ReservationStatus
  notes : Option String
deriving DecidableEq, Repr

/-- The create input as document fields (no `createdAt`, no `updatedAt`). -/
def createFields (i : CreateReservationInput) : ReservationFields :=
  ⟨some i.studentId, some i.teacherId, some i.courseId, some i.date, some i.startTime,
    some i.endTime, some i.status, i.notes, none, none⟩

/-- Document written by `addDoc` for a payload whose required fields are all
present (the `getD` defaults are never reached for a create payload run
through `convertToFirestore`). -/
def newDoc (f : ReservationFields) : StoredReservation :=
  applyFields ⟨"", "", "", ⟨0, 0, 0⟩, 0, 0, ReservationStatus.confirmed, none, 0, 0⟩ f

/-- `createReservation` (src/lib/database/reservations.ts lines 59-80 plus
`BaseRepository.create`): the custom security check requires the acting
user to be the reservation's student, or otherwise an admin (the
`requireAdminAccess` failure is caught and rethrown as `UNAUTHORIZED`);
only then is the converted payload written under a store-generated fresh id
(`newId`). -/
def createReservation (ctx : AuthCtx) (store : ReservationStore) (newId : String)
    (input : CreateReservationInput) (now : Nat) : Except OpError (ReservationStore × String) :=
  match getCurrentAuthUser ctx with
  | .error e => .error e
  | .ok uid =>
    if input.studentId ≠ uid ∧ isCurrentUserAdmin ctx = false then
      .error (.securityError "UNAUTHORIZED")
    else
      .ok (store ++ [(newId, newDoc (convertToFirestore now (createFields input)))], newId)

/-- Error record the reservations hook reports
(src/hooks/useReservations.ts lines 20-23). -/
inductive HookErrorType
  | validation
  | network
  | permission
deriving DecidableEq, Repr

/-- `ReservationError` of src/hooks/useReservations.ts. -/
structure HookError where
  message : String
  type : HookErrorType
deriving DecidableEq, Repr

/-- `CreateReservationData` of src/hooks/useReservations.ts. -/
structure CreateReservationData where
  date : DateYMD
  startTime : Minutes
  endTime : Minutes
  notes : Option String
deriving DecidableEq, Repr

/-- `createNewReservation` (src/hooks/useReservations.ts lines 55-110):
permission error when nobody is signed in; quota validation of the
requested duration (via `validateReservationTime` over the hook's course
usage) with a validation error and no write on failure; otherwise the
repository `createReservation` runs with `studentId := firebaseUser.uid`,
`status := confirmed`, and any repository throw is caught and reported as
a network-type error. -/
def createNewReservation (ctx : AuthCtx) (courseUsage : Option CourseUsage)
    (store : ReservationStore) (newId : String) (data : CreateReservationData) (now : Nat) :
    Except HookError (ReservationStore × String) :=
  match ctx with
  | none => .error ⟨"ログインが必要です", .permission⟩
  | some a =>
    let duration := calculateDuration data.startTime data.endTime
    let durationInHours : ℚ := (duration : ℚ) / 60
    let validation := validateReservationTime courseUsage durationInHours
    if validation.isValid then
      match createReservation ctx store newId
          ⟨a.uid, "default-teacher", "default-course", data.date, data.startTime,
            data.endTime, ReservationStatus.confirmed, data.notes⟩ now with
      | .ok r => .ok r
      | .error _ => .error ⟨"予約の作成に失敗しました", .network⟩
    else
      .error ⟨validation.message, .validation⟩

/-- `cancelReservation` (src/hooks/useReservations.ts lines 113-137): a
status update to `cancelled`; any throw is caught and reported as a
network-type error. -/
def cancelReservation (ctx : AuthCtx) (store : ReservationStore) (rid : String)
    (clientNow serverNow : Nat) : Except HookError ReservationStore :=
  match updateReservationStatus ctx store rid
      (createUpdateReservationStatusData ReservationStatus.cancelled none clientNow)
      serverNow with
  | .ok s => .ok s
  | .error _ => .error ⟨"予約のキャンセルに失敗しました", .network⟩

/-- `getReservationsByDateAndTeacher` (src/lib/database/reservations.ts
lines 122-133): a staff-only query for the confirmed reservations of one
teacher on one date. -/
def getReservationsByDateAndTeacher (ctx : AuthCtx) (store : ReservationStore)
    (date : DateYMD) (teacherId : String) : Except OpError (List StoredReservation) :=
  match requireStaffAccess ctx with
  | .error e => .error e
  | .ok _ =>
    .ok ((store.filter (fun p =>
        p.2.date == date && p.2.teacherId == teacherId &&
          p.2.status == ReservationStatus.confirmed)).map (fun p => p.2))

theorem slotsFrom_eq_map (closeT d : Nat) (hd : 0 < d) (cur : Nat) :
    slotsFrom closeT d cur =
      (List.range (numSlotsFrom closeT d cur)).map (fun i => mkTimeSlot (cur + i * d) d) := by
  generalize hn : closeT - cur = n
  induction n using Nat.strong_induction_on generalizing cur with
  | _ n ih =>
    subst hn
    rw [slotsFrom]
    by_cases h : cur + d < closeT ∧ 0 < d
    · rw [dif_pos h]
      rw [ih (closeT - (cur + d)) (by omega) (cur + d) rfl]
      have hnum : numSlotsFrom closeT d cur = numSlotsFrom closeT d (cur + d) + 1 := by
        unfold numSlotsFrom
        have e1 : closeT - cur + d - 1 = (closeT - cur - 1) + d := by omega
        have e2 : closeT - (cur + d) + d - 1 = closeT - cur - 1 := by omega
        rw [e1, e2, Nat.add_div_right _ hd]
        have e4 : d ≤ closeT - cur - 1 := by omega
        have e5 : 1 ≤ (closeT - cur - 1) / d := (Nat.one_le_div_iff hd).mpr e4
        omega
      rw [hnum, List.range_succ_eq_map, List.map_cons, List.map_map]
      refine congrArg₂ _ (by simp) ?_
      refine List.map_congr_left (fun i _ => ?_)
      simp only [Function.comp_apply]
      have : cur + d + i * d = cur + Nat.succ i * d := by rw [Nat.succ_mul]; ring
      rw [this]
    · rw [dif_neg h]
      have hC : closeT - cur ≤ d := by omega
      have hlt : closeT - cur + d - 1 < d * 2 := by omega
      have hdiv : (closeT - cur + d - 1) / d < 2 := Nat.div_lt_of_lt_mul hlt
      have : numSlotsFrom closeT d cur = 0 := by
        unfold numSlotsFrom
        omega
      rw [this]
      rfl

/-- Evaluation of the generator at the repository's defaults: eight
back-to-back 60-minute slots starting at 09:00. -/
theorem generateTimeSlots_default_eval :
    generateTimeSlots DEFAULT_BUSINESS_HOURS LESSON_DURATION =
      (List.range 8).map (fun i => mkTimeSlot (540 + i * 60) 60) := by
  have h := slotsFrom_eq_map (hm 18 0) 60 (by decide) (hm 9 0)
  have hnum : numSlotsFrom (hm 18 0) 60 (hm 9 0) = 8 := by decide
  rw [hnum] at h
  exact h

theorem slotsFrom_end_lt (closeT d : Nat) (cur : Nat) :
    ∀ s ∈ slotsFrom closeT d cur, s.endTime < closeT := by
  generalize hn : closeT - cur = n
  induction n using Nat.strong_induction_on generalizing cur with
  | _ n ih =>
    subst hn
    rw [slotsFrom]
    by_cases h : cur + d < closeT ∧ 0 < d
    · rw [dif_pos h]
      intro s hs
      rcases List.mem_cons.mp hs with hhd | htl
      · subst hhd
        exact h.1
      · exact ih (closeT - (cur + d)) (by omega) (cur + d) rfl s htl
    · rw [dif_neg h]
      intro s hs
      exact absurd hs (List.not_mem_nil s)

theorem slotsFrom_maximal (closeT d : Nat) (hd : 0 < d) (cur : Nat) :
    ¬ (cur + ((slotsFrom closeT d cur).length + 1) * d < closeT) := by
  generalize hn : closeT - cur = n
  induction n using Nat.strong_induction_on generalizing cur with
  | _ n ih =>
    subst hn
    rw [slotsFrom]
    by_cases h : cur + d < closeT ∧ 0 < d
    · rw [dif_pos h]
      have hrec := ih (closeT - (cur + d)) (by omega) (cur + d) rfl
      intro hcon
      apply hrec
      rw [List.length_cons] at hcon
      have heq : cur + (List.length (slotsFrom closeT d (cur + d)) + 1 + 1) * d =
          cur + d + (List.length (slotsFrom closeT d (cur + d)) + 1) * d := by
        ring
      omega
    · rw [dif_neg h]
      simp only [List.length_nil, Nat.zero_add, one_mul]
      omega

/-- C1 counterexample: with the repository's default business hours
(09:00-18:00) and the default 60-minute duration, `generateTimeSlots`
returns 8 slots, 09:00-10:00 through 16:00-17:00 — not 9; the loop's strict
`isBefore` drops the 17:00-18:00 slot, whose end coincides with closing
time, even though it is not a partial slot. -/
theorem C1_generateTimeSlots_counterexample :
    (generateTimeSlots DEFAULT_BUSINESS_HOURS LESSON_DURATION).length = 8 ∧
    ((generateTimeSlots DEFAULT_BUSINESS_HOURS LESSON_DURATION).length == 9) = false ∧
    (generateTimeSlots DEFAULT_BUSINESS_HOURS LESSON_DURATION).map TimeSlot.startTime =
      [hm 9 0, hm 10 0, hm 11 0, hm 12 0, hm 13 0, hm 14 0, hm 15 0, hm 16 0] ∧
    ((generateTimeSlots DEFAULT_BUSINESS_HOURS LESSON_DURATION).map
        TimeSlot.endTime).contains (hm 18 0) = false := by
  rw [generateTimeSlots_default_eval]
  refine ⟨by decide, by decide, by decide, by decide⟩

/-- C1 (amended): for the default business hours and 60-minute duration the
generator returns exactly 8 slots (09:00-10:00 through 16:00-17:00); in
general, for every `BusinessHours` and positive `duration`, it returns the
ordered sequence of non-overlapping, back-to-back slots of exactly
`duration` minutes starting at `open`, keeping exactly those slots whose
end lies strictly before `close` — so it drops not only a final partial
slot but also a final full slot that would end exactly at `close`. -/
theorem C1_generateTimeSlots_amended (bh : BusinessHours) (d : Nat) (hd : 0 < d) :
    (generateTimeSlots bh d).length = numSlotsFrom bh.closeTime d bh.openTime ∧
    (∀ i : Nat, ∀ hi : i < (generateTimeSlots bh d).length,
        ((generateTimeSlots bh d).get ⟨i, hi⟩).startTime = bh.openTime + i * d ∧
        ((generateTimeSlots bh d).get ⟨i, hi⟩).endTime = bh.openTime + i * d + d) ∧
    (∀ s ∈ generateTimeSlots bh d, s.endTime < bh.closeTime) ∧
    ¬ (bh.openTime + ((generateTimeSlots bh d).length + 1) * d < bh.closeTime) := by
  refine ⟨?_, ?_, ?_, ?_⟩
  · rw [generateTimeSlots, slotsFrom_eq_map bh.closeTime d hd]
    simp
  · intro i hi
    have hmap := slotsFrom_eq_map bh.closeTime d hd bh.openTime
    have hget : (generateTimeSlots bh d).get ⟨i, hi⟩ =
        mkTimeSlot (bh.openTime + i * d) d := by
      have hi2 : i < (generateTimeSlots bh d).length := hi
      rw [List.get_eq_getElem]
      simp only [generateTimeSlots] at hi2 ⊢
      rw [hmap] at hi2
      simp only [List.length_map, List.length_range] at hi2
      simp [hmap, List.getElem_map, List.getElem_range]
    rw [hget]
    exact ⟨rfl, rfl⟩
  · exact slotsFrom_end_lt bh.closeTime d bh.openTime
  · exact slotsFrom_maximal bh.closeTime d hd bh.openTime

/-- C1 witness: the amended theorem instantiated at the default business
hours and the default 60-minute duration. -/
theorem C1_generateTimeSlots_amended_witness :
    0 < 60 ∧
    ((generateTimeSlots DEFAULT_BUSINESS_HOURS 60).length =
        numSlotsFrom DEFAULT_BUSINESS_HOURS.closeTime 60 DEFAULT_BUSINESS_HOURS.openTime ∧
      (∀ i : Nat, ∀ hi : i < (generateTimeSlots DEFAULT_BUSINESS_HOURS 60).length,
          ((generateTimeSlots DEFAULT_BUSINESS_HOURS 60).get ⟨i, hi⟩).startTime =
            DEFAULT_BUSINESS_HOURS.openTime + i * 60 ∧
          ((generateTimeSlots DEFAULT_BUSINESS_HOURS 60).get ⟨i, hi⟩).endTime =
            DEFAULT_BUSINESS_HOURS.openTime + i * 60 + 60) ∧
      (∀ s ∈ generateTimeSlots DEFAULT_BUSINESS_HOURS 60,
          s.endTime < DEFAULT_BUSINESS_HOURS.closeTime) ∧
      ¬ (DEFAULT_BUSINESS_HOURS.openTime +
            ((generateTimeSlots DEFAULT_BUSINESS_HOURS 60).length + 1) * 60 <
          DEFAULT_BUSINESS_HOURS.closeTime)) :=
  ⟨by decide, C1_generateTimeSlots_amended DEFAULT_BUSINESS_HOURS 60 (by decide)⟩

/-- C3: `isTimeOverlapping` answers true exactly when `aEnd > bStart` and
`aStart < bEnd` (half-open interval semantics); intervals that merely touch
at an endpoint (`aEnd = bStart`) never overlap; and the two concrete
examples from the spec hold: 09:00-10:00 does not overlap 10:00-11:00, and
09:00-10:00 does overlap 09:30-10:30. -/
theorem C3_isTimeOverlapping_correct :
    (∀ aStart aEnd bStart bEnd : Minutes,
        isTimeOverlapping aStart aEnd bStart bEnd = true ↔
          (bStart < aEnd ∧ aStart < bEnd)) ∧
    (∀ aStart t bEnd : Minutes, isTimeOverlapping aStart t t bEnd = false) ∧
    isTimeOverlapping (hm 9  0) (hm 10 0) (hm 10 0) (hm 11 0) = false ∧
    isTimeOverlapping (hm 9 0) (hm 10 0) (hm 9 30) (hm 10 30) = true := by
  refine ⟨?_, ?_, by decide, by decide⟩
  · intro a b c e
    simp [isTimeOverlapping]
  · intro a t e
    simp [isTimeOverlapping]

theorem foldl_add_eq_sum (f : StoredReservation → ℚ) (l : List StoredReservation) (a : ℚ) :
    l.foldl (fun total r => total + f r) a = a + (l.map f).sum := by
  induction l generalizing a with
  | nil => simp
  | cons hd tl ih =>
    simp only [List.foldl_cons, List.map_cons, List.sum_cons]
    rw [ih]
    ring

theorem calculateMonthlyUsage_eq_sum (now : DateYMD) (rs : List StoredReservation) :
    calculateMonthlyUsage now rs =
      ((rs.filter (fun r =>
          r.status == ReservationStatus.confirmed && r.date.month == now.month &&
            r.date.year == now.year)).map
        (fun r => (calculateDuration r.startTime r.endTime : ℚ) / 60)).sum := by
  rw [calculateMonthlyUsage]
  by_cases hrs : rs.isEmpty
  · rw [if_pos hrs]
    rw [List.isEmpty_iff.mp hrs]
    simp
  · rw [if_neg hrs, foldl_add_eq_sum, zero_add]
    refine congrArg _ (congrArg _ (List.filter_congr (fun r _ => ?_)))
    have hb : ∀ x y z : Bool, (x && y && z) = (z && x && y) := by decide
    exact hb _ _ _

/-- C4: `validateReservationTime` checks its rules in order with the first
failing rule winning — a non-positive request is rejected with the
minimum-time message, a request above the remaining hours is rejected with
the quota message reporting the remaining hours, anything else is valid,
and `maxAllowedHours` is always the remaining hours. -/
theorem C4_validateReservationTime_correct (u : CourseUsage) (q : ℚ) :
    (q ≤ 0 →
      validateReservationTime (some u) q = ⟨false, msgMinimumTime, u.remainingHours⟩) ∧
    (0 < q → u.remainingHours < q →
      validateReservationTime (some u) q =
        ⟨false, msgQuotaExceeded u.remainingHours, u.remainingHours⟩) ∧
    (0 < q → q ≤ u.remainingHours →
      validateReservationTime (some u) q = ⟨true, msgOk, u.remainingHours⟩) := by
  refine ⟨fun h => ?_, fun h1 h2 => ?_, fun h1 h2 => ?_⟩
  · simp [validateReservationTime, h]
  · simp [validateReservationTime, not_le.mpr h1, h2]
  · simp [validateReservationTime, not_le.mpr h1, not_lt.mpr h2]

/-- C4 witness: with `totalHours = 15` and `usedHours = 14` (so one
remaining hour), requesting 1 hour is valid, requesting 2 hours is invalid
with `maxAllowedHours = 1`, and requesting 0 hours is invalid. -/
theorem C4_validateReservationTime_witness :
    validateReservationTime (some ⟨14, 1, 15, 0⟩) 1 = ⟨true, msgOk, 1⟩ ∧
    validateReservationTime (some ⟨14, 1, 15, 0⟩) 2 = ⟨false, msgQuotaExceeded 1, 1⟩ ∧
    validateReservationTime (some ⟨14, 1, 15, 0⟩) 0 = ⟨false, msgMinimumTime, 1⟩ :=
  ⟨(C4_validateReservationTime_correct ⟨14, 1, 15, 0⟩ 1).2.2 (by norm_num) (by norm_num),
    (C4_validateReservationTime_correct ⟨14, 1, 15, 0⟩ 2).2.1 (by norm_num) (by norm_num),
    (C4_validateReservationTime_correct ⟨14, 1, 15, 0⟩ 0).1 (by norm_num)⟩

/-- C5: the monthly used hours are the sum of the durations in hours of
exactly the confirmed reservations dated in the current month and year;
cancelled or completed reservations, and confirmed reservations of other
months, contribute nothing; and the updated course usage sets
`remainingHours = totalHours - usedHours`. -/
theorem C5_calculateMonthlyUsage_correct (now : DateYMD) (rs : List StoredReservation) :
    (calculateMonthlyUsage now rs =
      ((rs.filter (fun r =>
          r.status == ReservationStatus.confirmed && r.date.month == now.month &&
            r.date.year == now.year)).map
        (fun r => (calculateDuration r.startTime r.endTime : ℚ) / 60)).sum) ∧
    (∀ r : StoredReservation,
        (r.status = ReservationStatus.cancelled ∨ r.status = ReservationStatus.completed ∨
            ¬ (r.date.month = now.month ∧ r.date.year = now.year)) →
        calculateMonthlyUsage now (r :: rs) = calculateMonthlyUsage now rs) ∧
    (∀ c : CourseUsage, ∀ mu : ℚ,
        updatedCourseUsage (some c) mu =
          some ⟨mu, c.totalHours - mu, c.totalHours, mu / c.totalHours * 100⟩) := by
  refine ⟨calculateMonthlyUsage_eq_sum now rs, fun r hr => ?_, fun c mu => rfl⟩
  rw [calculateMonthlyUsage_eq_sum, calculateMonthlyUsage_eq_sum, List.filter_cons]
  have hfalse : (r.status == ReservationStatus.confirmed && r.date.month == now.month &&
      r.date.year == now.year) = false := by
    rcases hr with h | h | h
    · simp [h]
    · simp [h]
    · rcases not_and_or.mp h with h2 | h2 <;> simp [h2]
  rw [hfalse]
  simp

/-- C5 witness: with a confirmed 10:00-11:00 reservation in the current
month, a cancelled one at the same time, and a confirmed one in another
month, only the first contributes: one used hour, so 14 of 15 hours
remain. -/
theorem C5_calculateMonthlyUsage_witness :
    calculateMonthlyUsage ⟨2025, 9, 15⟩
        [⟨"s1", "t1", "c1", ⟨2025, 9, 10⟩, hm 10 0, hm 11 0,
            ReservationStatus.cancelled, none, 0, 0⟩,
          ⟨"s1", "t1", "c1", ⟨2025, 9, 11⟩, hm 10 0, hm 11 0,
            ReservationStatus.confirmed, none, 0, 0⟩,
          ⟨"s1", "t1", "c1", ⟨2025, 8, 11⟩, hm 10 0, hm 11 0,
            ReservationStatus.confirmed, none, 0, 0⟩] = 1 ∧
    updatedCourseUsage (some ⟨0, 15, 15, 0⟩) 1 = some ⟨1, 14, 15, 1 / 15 * 100⟩ := by
  have hdrop := (C5_calculateMonthlyUsage_correct ⟨2025, 9, 15⟩
      [⟨"s1", "t1", "c1", ⟨2025, 9, 11⟩, hm 10 0, hm 11 0,
          ReservationStatus.confirmed, none, 0, 0⟩,
        ⟨"s1", "t1", "c1", ⟨2025, 8, 11⟩, hm 10 0, hm 11 0,
          ReservationStatus.confirmed, none, 0, 0⟩]).2.1
      ⟨"s1", "t1", "c1", ⟨2025, 9, 10⟩, hm 10 0, hm 11 0,
        ReservationStatus.cancelled, none, 0, 0⟩ (Or.inl rfl)
  constructor
  · rw [hdrop, calculateMonthlyUsage_eq_sum]
    norm_num [calculateDuration, hm]
  · rw [(C5_calculateMonthlyUsage_correct ⟨2025, 9, 15⟩ []).2.2 ⟨0, 15, 15, 0⟩ 1]
    norm_num

/-- C6: a generated slot is marked booked exactly when it overlaps at least
one existing confirmed reservation on the selected day; prepending a
cancelled reservation never changes any slot's booked flag; and the
rendered grid keeps every generated slot (booked ones are flagged, for
disabling, rather than removed). -/
theorem C6_isTimeSlotBooked_correct (day : DateYMD) (existing : List StoredReservation) :
    (∀ s : TimeSlot,
        isTimeSlotBooked (dateReservations day existing) s = true ↔
          ∃ r ∈ existing, r.status = ReservationStatus.confirmed ∧ r.date = day ∧
            isTimeOverlapping s.startTime s.endTime r.startTime r.endTime = true) ∧
    ((renderedSlots day existing).map Prod.fst =
      generateTimeSlots DEFAULT_BUSINESS_HOURS LESSON_DURATION) ∧
    (∀ p ∈ renderedSlots day existing,
        p.2 = isTimeSlotBooked (dateReservations day existing) p.1) ∧
    (∀ r : StoredReservation, r.status = ReservationStatus.cancelled →
        ∀ s : TimeSlot,
          isTimeSlotBooked (dateReservations day (r :: existing)) s =
            isTimeSlotBooked (dateReservations day existing) s) := by
  refine ⟨fun s => ?_, ?_, fun p hp => ?_, fun r hr s => ?_⟩
  · simp only [isTimeSlotBooked, List.any_eq_true, dateReservations, List.mem_filter,
      Bool.and_eq_true, beq_iff_eq, isSameDay]
    constructor
    · rintro ⟨r, ⟨hmem, hst, hday⟩, hov⟩
      exact ⟨r, hmem, hst, hday, hov⟩
    · rintro ⟨r, hmem, hst, hday, hov⟩
      exact ⟨r, ⟨hmem, hst, hday⟩, hov⟩
  · rw [renderedSlots, List.map_map]
    exact List.map_id _
  · rcases List.mem_map.mp hp with ⟨s, _, rfl⟩
    rfl
  · rw [dateReservations, dateReservations, List.filter_cons]
    have : (r.status == ReservationStatus.confirmed && isSameDay r.date day) = false := by
      simp [hr]
    rw [this]
    simp

/-- C6 witness: for one confirmed 10:00-11:00 reservation on the selected
day, exactly the second generated slot (10:00-11:00) is flagged booked; a
cancelled reservation at the same time flags nothing. -/
theorem C6_isTimeSlotBooked_witness :
    (renderedSlots ⟨2025, 9, 10⟩
        [⟨"s1", "t1", "c1", ⟨2025, 9, 10⟩, hm 10 0, hm 11 0,
            ReservationStatus.confirmed, none, 0, 0⟩]).map Prod.snd =
      [false, true, false, false, false, false, false, false] ∧
    (renderedSlots ⟨2025, 9, 10⟩
        [⟨"s1", "t1", "c1", ⟨2025, 9, 10⟩, hm 10 0, hm 11 0,
            ReservationStatus.cancelled, none, 0, 0⟩]).map Prod.snd =
      [false, false, false, false, false, false, false, false] := by
  constructor
  · rw [renderedSlots, generateTimeSlots_default_eval]
    decide
  · rw [renderedSlots, generateTimeSlots_default_eval]
    decide

theorem lookupReservation_updateStore (store : ReservationStore) (rid : String)
    (f : ReservationFields) :
    lookupReservation (updateStore store rid f) rid =
      (lookupReservation store rid).map (fun r => applyFields r f) := by
  induction store with
  | nil => rfl
  | cons p tl ih =>
    rw [updateStore, List.map_cons]
    by_cases hp : (p.1 == rid) = true
    · rw [if_pos hp]
      simp only [lookupReservation, List.find?_cons, hp]
      rfl
    · rw [if_neg hp]
      simp only [lookupReservation, List.find?_cons, Bool.eq_false_iff.mpr hp]
      rw [lookupReservation, updateStore] at ih
      exact ih

theorem updateSecurityCheck_ok (a : Actor) (store : ReservationStore) (rid : String)
    (r : StoredReservation) (hr : lookupReservation store rid = some r)
    (hauth : a.uid = r.studentId ∨ (r.teacherId ≠ "" ∧ a.uid = r.teacherId) ∨
      a.role = some UserRole.admin) :
    updateSecurityCheck (some a) store rid = Except.ok () := by
  rw [updateSecurityCheck, hr]
  simp only [canAccessReservationData, getCurrentAuthUser, Option.getD_some]
  by_cases h1 : a.uid = r.studentId
  · rw [if_pos h1]
  · rw [if_neg h1]
    by_cases h2 : r.teacherId ≠ "" ∧ a.uid = r.teacherId
    · rw [if_pos h2]
    · rw [if_neg h2]
      have h3 : a.role = some UserRole.admin := by
        rcases hauth with h | h | h
        · exact absurd h h1
        · exact absurd h h2
        · exact h
      rw [if_pos (by simp [isCurrentUserAdmin, h3])]

theorem updateSecurityCheck_denied (a : Actor) (store : ReservationStore) (rid : String)
    (r : StoredReservation) (hr : lookupReservation store rid = some r)
    (hs : a.uid ≠ r.studentId) (hteach : a.uid ≠ r.teacherId)
    (hadm : a.role ≠ some UserRole.admin) :
    updateSecurityCheck (some a) store rid =
      Except.error (OpError.securityError "ACCESS_DENIED") := by
  rw [updateSecurityCheck, hr]
  simp only [canAccessReservationData, getCurrentAuthUser, Option.getD_some]
  rw [if_neg hs, if_neg (fun h => hteach h.2),
    if_neg (by simp [isCurrentUserAdmin, hadm])]

/-- C2 counterexample: re-cancelling (or completing) a reservation whose
status is already `cancelled` does not fail — with the record's own student
acting, `updateReservationStatus` succeeds and rewrites the stored record
(`createdAt` and `updatedAt` move to the write time), so the attempt
neither yields an InvalidStateError-kind outcome nor leaves the record
unchanged. -/
theorem C2_terminal_status_counterexample :
    updateReservationStatus (some ⟨"s1", some UserRole.student⟩)
        [("r1", ⟨"s1", "t1", "c1", ⟨2025, 9, 10⟩, hm 10 0, hm 11 0,
            ReservationStatus.cancelled, none, 5, 5⟩)] "r1"
        (createUpdateReservationStatusData ReservationStatus.cancelled none 9) 10 =
      Except.ok [("r1", ⟨"s1", "t1", "c1", ⟨2025, 9, 10⟩, hm 10 0, hm 11 0,
          ReservationStatus.cancelled, none, 10, 10⟩)] ∧
    updateReservationStatus (some ⟨"s1", some UserRole.student⟩)
        [("r1", ⟨"s1", "t1", "c1", ⟨2025, 9, 10⟩, hm 10 0, hm 11 0,
            ReservationStatus.cancelled, none, 5, 5⟩)] "r1"
        (createUpdateReservationStatusData ReservationStatus.completed none 9) 10 =
      Except.ok [("r1", ⟨"s1", "t1", "c1", ⟨2025, 9, 10⟩, hm 10 0, hm 11 0,
          ReservationStatus.completed, none, 10, 10⟩)] ∧
    ((⟨"s1", "t1", "c1", ⟨2025, 9, 10⟩, hm 10 0, hm 11 0,
          ReservationStatus.cancelled, none, 10, 10⟩ : StoredReservation) ==
        ⟨"s1", "t1", "c1", ⟨2025, 9, 10⟩, hm 10 0, hm 11 0,
          ReservationStatus.cancelled, none, 5, 5⟩) = false := by
  refine ⟨rfl, rfl, by decide⟩

/-- C2 (amended): the code enforces no status-transition discipline. For a
stored reservation whose status is already terminal (`cancelled` or
`completed`), a status update by an authorized actor (the record's student,
its teacher, or an administrator) succeeds outright: the stored status is
overwritten with the requested one and `createdAt`/`updatedAt` move to the
write time, instead of the attempt failing with an InvalidStateError-kind
outcome and leaving the record unchanged. -/
theorem C2_terminal_status_amended (a : Actor) (store : ReservationStore) (rid : String)
    (r : StoredReservation) (sd : UpdateReservationStatusData) (now : Nat)
    (hr : lookupReservation store rid = some r)
    (hterm : r.status = ReservationStatus.cancelled ∨ r.status = ReservationStatus.completed)
    (hauth : a.uid = r.studentId ∨ (r.teacherId ≠ "" ∧ a.uid = r.teacherId) ∨
      a.role = some UserRole.admin) :
    ∃ store2, updateReservationStatus (some a) store rid sd now = Except.ok store2 ∧
      lookupReservation store2 rid =
        some (applyFields r (convertToFirestore now (statusDataFields sd))) ∧
      (applyFields r (convertToFirestore now (statusDataFields sd))).status = sd.status ∧
      (applyFields r (convertToFirestore now (statusDataFields sd))).createdAt = now ∧
      (applyFields r (convertToFirestore now (statusDataFields sd))).updatedAt = now := by
  have hcheck := updateSecurityCheck_ok a store rid r hr hauth
  refine ⟨updateStore store rid (convertToFirestore now (statusDataFields sd)), ?_, ?_, rfl, rfl, rfl⟩
  · rw [updateReservationStatus, updateReservation, hcheck]
  · rw [lookupReservation_updateStore, hr]
    rfl

/-- C2 witness: the amended theorem at a concrete cancelled reservation,
completed by its own student. -/
theorem C2_terminal_status_witness :
    ∃ store2,
      updateReservationStatus (some ⟨"s1", some UserRole.student⟩)
          [("r1", ⟨"s1", "t1", "c1", ⟨2025, 9, 10⟩, hm 10 0, hm 11 0,
              ReservationStatus.cancelled, none, 5, 5⟩)] "r1"
          (createUpdateReservationStatusData ReservationStatus.completed none 9) 10 =
        Except.ok store2 ∧
      lookupReservation store2 "r1" =
        some (applyFields
          ⟨"s1", "t1", "c1", ⟨2025, 9, 10⟩, hm 10 0, hm 11 0,
            ReservationStatus.cancelled, none, 5, 5⟩
          (convertToFirestore 10 (statusDataFields
            (createUpdateReservationStatusData ReservationStatus.completed none 9)))) ∧
      (applyFields
          ⟨"s1", "t1", "c1", ⟨2025, 9, 10⟩, hm 10 0, hm 11 0,
            ReservationStatus.cancelled, none, 5, 5⟩
          (convertToFirestore 10 (statusDataFields
            (createUpdateReservationStatusData ReservationStatus.completed none 9)))).status =
        (createUpdateReservationStatusData ReservationStatus.completed none 9).status ∧
      (applyFields
          ⟨"s1", "t1", "c1", ⟨2025, 9, 10⟩, hm 10 0, hm 11 0,
            ReservationStatus.cancelled, none, 5, 5⟩
          (convertToFirestore 10 (statusDataFields
            (createUpdateReservationStatusData ReservationStatus.completed none 9)))).createdAt =
        10 ∧
      (applyFields
          ⟨"s1", "t1", "c1", ⟨2025, 9, 10⟩, hm 10 0, hm 11 0,
            ReservationStatus.cancelled, none, 5, 5⟩
          (convertToFirestore 10 (statusDataFields
            (createUpdateReservationStatusData ReservationStatus.completed none 9)))).updatedAt =
        10 :=
  C2_terminal_status_amended ⟨"s1", some UserRole.student⟩
    [("r1", ⟨"s1", "t1", "c1", ⟨2025, 9, 10⟩, hm 10 0, hm 11 0,
        ReservationStatus.cancelled, none, 5, 5⟩)] "r1"
    ⟨"s1", "t1", "c1", ⟨2025, 9, 10⟩, hm 10 0, hm 11 0,
      ReservationStatus.cancelled, none, 5, 5⟩
    (createUpdateReservationStatusData ReservationStatus.completed none 9) 10
    (by decide) (Or.inl rfl) (Or.inl rfl)

/-- C7: reservation creation writes nothing when the quota validation of
the requested duration fails (a validation-kind failure is reported), and
the repository write is refused with a PermissionError-kind outcome
(`SecurityError UNAUTHORIZED`) when the acting identity differs from the
payload's `studentId` and the actor is not an administrator; on success the
persisted record has `status = confirmed` and `createdAt = updatedAt = now`
(the write time), keyed by the store-generated fresh id. An `Except.error`
result carries no store, which is the no-write guarantee. -/
theorem C7_createNewReservation_correct (a : Actor) (usage : Option CourseUsage)
    (store : ReservationStore) (newId : String) (data : CreateReservationData) (now : Nat) :
    ((validateReservationTime usage
          ((calculateDuration data.startTime data.endTime : ℚ) / 60)).isValid = false →
      createNewReservation (some a) usage store newId data now =
        Except.error ⟨(validateReservationTime usage
            ((calculateDuration data.startTime data.endTime : ℚ) / 60)).message,
          HookErrorType.validation⟩) ∧
    (∀ input : CreateReservationInput,
        input.studentId ≠ a.uid → a.role ≠ some UserRole.admin →
        createReservation (some a) store newId input now =
          Except.error (OpError.securityError "UNAUTHORIZED")) ∧
    ((validateReservationTime usage
          ((calculateDuration data.startTime data.endTime : ℚ) / 60)).isValid = true →
      createNewReservation (some a) usage store newId data now =
        Except.ok (store ++ [(newId, newDoc (convertToFirestore now (createFields
            ⟨a.uid, "default-teacher", "default-course", data.date, data.startTime,
              data.endTime, ReservationStatus.confirmed, data.notes⟩)))], newId) ∧
      (newDoc (convertToFirestore now (createFields
          ⟨a.uid, "default-teacher", "default-course", data.date, data.startTime,
            data.endTime, ReservationStatus.confirmed, data.notes⟩))).status =
        ReservationStatus.confirmed ∧
      (newDoc (convertToFirestore now (createFields
          ⟨a.uid, "default-teacher", "default-course", data.date, data.startTime,
            data.endTime, ReservationStatus.confirmed, data.notes⟩))).createdAt = now ∧
      (newDoc (convertToFirestore now (createFields
          ⟨a.uid, "default-teacher", "default-course", data.date, data.startTime,
            data.endTime, ReservationStatus.confirmed, data.notes⟩))).updatedAt = now ∧
      (newDoc (convertToFirestore now (createFields
          ⟨a.uid, "default-teacher", "default-course", data.date, data.startTime,
            data.endTime, ReservationStatus.confirmed, data.notes⟩))).studentId = a.uid) := by
  refine ⟨fun h => ?_, fun input hne hadm => ?_, fun h => ⟨?_, rfl, rfl, rfl, rfl⟩⟩
  · simp [createNewReservation, h]
  · simp [createReservation, getCurrentAuthUser, isCurrentUserAdmin, hne,
      beq_eq_false_iff_ne, hadm]
  · simp [createNewReservation, createReservation, getCurrentAuthUser, h]

/-- C7 witness: with one remaining hour, a two-hour request is rejected as
a validation error; creating for another student as a non-admin is refused
with `UNAUTHORIZED`; a one-hour request succeeds and persists the confirmed
record under the fresh id. -/
theorem C7_createNewReservation_witness :
    createNewReservation (some ⟨"s1", some UserRole.student⟩) (some ⟨14, 1, 15, 0⟩) [] "r9"
        ⟨⟨2025, 9, 10⟩, hm 10 0, hm 12 0, none⟩ 10 =
      Except.error ⟨(validateReservationTime (some ⟨14, 1, 15, 0⟩)
          ((calculateDuration (hm 10 0) (hm 12 0) : ℚ) / 60)).message,
        HookErrorType.validation⟩ ∧
    createReservation (some ⟨"s1", some UserRole.student⟩) [] "r9"
        ⟨"s2", "t1", "c1", ⟨2025, 9, 10⟩, hm 10 0, hm 11 0,
          ReservationStatus.confirmed, none⟩ 10 =
      Except.error (OpError.securityError "UNAUTHORIZED") ∧
    createNewReservation (some ⟨"s1", some UserRole.student⟩) (some ⟨14, 1, 15, 0⟩) [] "r9"
        ⟨⟨2025, 9, 10⟩, hm 10 0, hm 11 0, none⟩ 10 =
      Except.ok ([("r9", newDoc (convertToFirestore 10 (createFields
          ⟨"s1", "default-teacher", "default-course", ⟨2025, 9, 10⟩, hm 10 0, hm 11 0,
            ReservationStatus.confirmed, none⟩)))], "r9") :=
  ⟨(C7_createNewReservation_correct ⟨"s1", some UserRole.student⟩ (some ⟨14, 1, 15, 0⟩) []
      "r9" ⟨⟨2025, 9, 10⟩, hm 10 0, hm 12 0, none⟩ 10).1
      (by norm_num [validateReservationTime, calculateDuration, hm]),
    (C7_createNewReservation_correct ⟨"s1", some UserRole.student⟩ (some ⟨14, 1, 15, 0⟩) []
      "r9" ⟨⟨2025, 9, 10⟩, hm 10 0, hm 12 0, none⟩ 10).2.1
      ⟨"s2", "t1", "c1", ⟨2025, 9, 10⟩, hm 10 0, hm 11 0,
        ReservationStatus.confirmed, none⟩ (by decide) (by decide),
    ((C7_createNewReservation_correct ⟨"s1", some UserRole.student⟩ (some ⟨14, 1, 15, 0⟩) []
      "r9" ⟨⟨2025, 9, 10⟩, hm 10 0, hm 11 0, none⟩ 10).2.2
      (by norm_num [validateReservationTime, calculateDuration, hm])).1⟩

/-- C8: every reservation update (the generic update and the status update
used by cancel) authorizes against the freshly fetched stored record: the
operation goes through exactly when the acting identity equals that
record's `studentId` or (non-empty) `teacherId` or the actor is an
administrator; otherwise it fails with a PermissionError-kind
`ACCESS_DENIED` outcome before any write, leaving every stored record —
its `status` and `updatedAt` included — unchanged. The payload `updates`
is universally quantified, so ids a caller smuggles into the payload never
influence the authorization decision. -/
theorem C8_update_authorization (a : Actor) (store : ReservationStore) (rid : String)
    (r : StoredReservation) (updates : ReservationFields) (sd : UpdateReservationStatusData)
    (now : Nat) (hr : lookupReservation store rid = some r) :
    (a.uid ≠ r.studentId → a.uid ≠ r.teacherId → a.role ≠ some UserRole.admin →
      updateReservation (some a) store rid updates now =
        Except.error (OpError.securityError "ACCESS_DENIED") ∧
      updateReservationStatus (some a) store rid sd now =
        Except.error (OpError.securityError "ACCESS_DENIED")) ∧
    ((a.uid = r.studentId ∨ (r.teacherId ≠ "" ∧ a.uid = r.teacherId) ∨
        a.role = some UserRole.admin) →
      updateReservation (some a) store rid updates now =
        Except.ok (updateStore store rid (convertToFirestore now updates)) ∧
      updateReservationStatus (some a) store rid sd now =
        Except.ok (updateStore store rid (convertToFirestore now (statusDataFields sd)))) := by
  refine ⟨fun h1 h2 h3 => ?_, fun hauth => ?_⟩
  · have hchk := updateSecurityCheck_denied a store rid r hr h1 h2 h3
    exact ⟨by rw [updateReservation, hchk],
      by rw [updateReservationStatus, updateReservation, hchk]⟩
  · have hchk := updateSecurityCheck_ok a store rid r hr hauth
    exact ⟨by rw [updateReservation, hchk],
      by rw [updateReservationStatus, updateReservation, hchk]⟩

/-- C8 witness: a student who is neither the record's student nor its
teacher nor an admin is denied both update paths with `ACCESS_DENIED`,
while the record's own teacher is allowed through. -/
theorem C8_update_authorization_witness :
    (updateReservation (some ⟨"s2", some UserRole.student⟩)
        [("r1", ⟨"s1", "t1", "c1", ⟨2025, 9, 10⟩, hm 10 0, hm 11 0,
            ReservationStatus.confirmed, none, 5, 5⟩)] "r1"
        ⟨some "s2", none, none, none, none, none, none, none, none, some 9⟩ 10 =
      Except.error (OpError.securityError "ACCESS_DENIED") ∧
    updateReservationStatus (some ⟨"s2", some UserRole.student⟩)
        [("r1", ⟨"s1", "t1", "c1", ⟨2025, 9, 10⟩, hm 10 0, hm 11 0,
            ReservationStatus.confirmed, none, 5, 5⟩)] "r1"
        (createUpdateReservationStatusData ReservationStatus.cancelled none 9) 10 =
      Except.error (OpError.securityError "ACCESS_DENIED")) ∧
    (updateReservation (some ⟨"t1", some UserRole.teacher⟩)
        [("r1", ⟨"s1", "t1", "c1", ⟨2025, 9, 10⟩, hm 10 0, hm 11 0,
            ReservationStatus.confirmed, none, 5, 5⟩)] "r1"
        ⟨some "s2", none, none, none, none, none, none, none, none, some 9⟩ 10 =
      Except.ok (updateStore
        [("r1", ⟨"s1", "t1", "c1", ⟨2025, 9, 10⟩, hm 10 0, hm 11 0,
            ReservationStatus.confirmed, none, 5, 5⟩)] "r1"
        (convertToFirestore 10
          ⟨some "s2", none, none, none, none, none, none, none, none, some 9⟩)) ∧
    updateReservationStatus (some ⟨"t1", some UserRole.teacher⟩)
        [("r1", ⟨"s1", "t1", "c1", ⟨2025, 9, 10⟩, hm 10 0, hm 11 0,
            ReservationStatus.confirmed, none, 5, 5⟩)] "r1"
        (createUpdateReservationStatusData ReservationStatus.cancelled none 9) 10 =
      Except.ok (updateStore
        [("r1", ⟨"s1", "t1", "c1", ⟨2025, 9, 10⟩, hm 10 0, hm 11 0,
            ReservationStatus.confirmed, none, 5, 5⟩)] "r1"
        (convertToFirestore 10 (statusDataFields
          (createUpdateReservationStatusData ReservationStatus.cancelled none 9))))) :=
  ⟨(C8_update_authorization ⟨"s2", some UserRole.student⟩
      [("r1", ⟨"s1", "t1", "c1", ⟨2025, 9, 10⟩, hm 10 0, hm 11 0,
          ReservationStatus.confirmed, none, 5, 5⟩)] "r1"
      ⟨"s1", "t1", "c1", ⟨2025, 9, 10⟩, hm 10 0, hm 11 0,
        ReservationStatus.confirmed, none, 5, 5⟩
      ⟨some "s2", none, none, none, none, none, none, none, none, some 9⟩
      (createUpdateReservationStatusData ReservationStatus.cancelled none 9) 10
      (by decide)).1 (by decide) (by decide) (by decide),
    (C8_update_authorization ⟨"t1", some UserRole.teacher⟩
      [("r1", ⟨"s1", "t1", "c1", ⟨2025, 9, 10⟩, hm 10 0, hm 11 0,
          ReservationStatus.confirmed, none, 5, 5⟩)] "r1"
      ⟨"s1", "t1", "c1", ⟨2025, 9, 10⟩, hm 10 0, hm 11 0,
        ReservationStatus.confirmed, none, 5, 5⟩
      ⟨some "s2", none, none, none, none, none, none, none, none, some 9⟩
      (createUpdateReservationStatusData ReservationStatus.cancelled none 9) 10
      (by decide)).2 (Or.inr (Or.inl ⟨by decide, rfl⟩))⟩

/-- C9: `getReservationsByDateAndTeacher` succeeds exactly for staff actors
(teacher or administrator). For a staff actor it returns precisely the
stored reservations with `status = confirmed`, the given teacher and the
given date — all of them and nothing else; for every non-staff actor it
fails with `STAFF_REQUIRED` and returns no data. -/
theorem C9_getReservationsByDateAndTeacher_correct (ctx : AuthCtx)
    (store : ReservationStore) (day : DateYMD) (tid : String) :
    (isCurrentUserStaff ctx = true →
      getReservationsByDateAndTeacher ctx store day tid =
        Except.ok ((store.filter (fun p =>
            p.2.date == day && p.2.teacherId == tid &&
              p.2.status == ReservationStatus.confirmed)).map (fun p => p.2)) ∧
      ∀ r : StoredReservation,
        r ∈ (store.filter (fun p =>
            p.2.date == day && p.2.teacherId == tid &&
              p.2.status == ReservationStatus.confirmed)).map (fun p => p.2) ↔
          ((∃ k : String, (k, r) ∈ store) ∧ r.date = day ∧ r.teacherId = tid ∧
            r.status = ReservationStatus.confirmed)) ∧
    (isCurrentUserStaff ctx = false →
      getReservationsByDateAndTeacher ctx store day tid =
        Except.error (OpError.securityError "STAFF_REQUIRED")) := by
  refine ⟨fun hs => ⟨?_, fun r => ?_⟩, fun hs => ?_⟩
  · rw [getReservationsByDateAndTeacher, requireStaffAccess, if_pos hs]
  · constructor
    · intro hin
      rcases List.mem_map.mp hin with ⟨p, hp, rfl⟩
      rcases List.mem_filter.mp hp with ⟨hmem, hcond⟩
      simp only [Bool.and_eq_true, beq_iff_eq] at hcond
      exact ⟨⟨p.1, hmem⟩, hcond.1.1, hcond.1.2, hcond.2⟩
    · rintro ⟨⟨k, hk⟩, hd, ht, hst⟩
      exact List.mem_map.mpr ⟨(k, r), List.mem_filter.mpr ⟨hk, by simp [hd, ht, hst]⟩, rfl⟩
  · rw [getReservationsByDateAndTeacher, requireStaffAccess, if_neg (by simp [hs])]

/-- C9 witness: a teacher sees exactly the confirmed matching reservation
(not the cancelled one at the same time, not another teacher's); a student
gets `STAFF_REQUIRED`. -/
theorem C9_getReservationsByDateAndTeacher_witness :
    getReservationsByDateAndTeacher (some ⟨"t9", some UserRole.teacher⟩)
        [("a", ⟨"s1", "t1", "c1", ⟨2025, 9, 10⟩, hm 10 0, hm 11 0,
            ReservationStatus.confirmed, none, 0, 0⟩),
          ("b", ⟨"s2", "t1", "c1", ⟨2025, 9, 10⟩, hm 11 0, hm 12 0,
            ReservationStatus.cancelled, none, 0, 0⟩),
          ("c", ⟨"s3", "t2", "c1", ⟨2025, 9, 10⟩, hm 10 0, hm 11 0,
            ReservationStatus.confirmed, none, 0, 0⟩)]
        ⟨2025, 9, 10⟩ "t1" =
      Except.ok [⟨"s1", "t1", "c1", ⟨2025, 9, 10⟩, hm 10 0, hm 11 0,
        ReservationStatus.confirmed, none, 0, 0⟩] ∧
    getReservationsByDateAndTeacher (some ⟨"s1", some UserRole.student⟩)
        [("a", ⟨"s1", "t1", "c1", ⟨2025, 9, 10⟩, hm 10 0, hm 11 0,
            ReservationStatus.confirmed, none, 0, 0⟩)]
        ⟨2025, 9, 10⟩ "t1" =
      Except.error (OpError.securityError "STAFF_REQUIRED") :=
  ⟨rfl, rfl⟩

/-- C10: every reservation write runs through `convertToFirestore`, which
sets `updatedAt` to the write time and, whenever the payload lacks a
`createdAt` field, also inserts `createdAt := now` into the written fields;
the status-update payload `{status, notes?, updatedAt}` always lacks
`createdAt`, so a status update rewrites the stored record's `createdAt`
to the update time instead of preserving the original creation
timestamp. -/
theorem C10_update_rewrites_createdAt (a : Actor) (store : ReservationStore) (rid : String)
    (r : StoredReservation) (sd : UpdateReservationStatusData) (now : Nat)
    (hr : lookupReservation store rid = some r) (hauth : a.uid = r.studentId) :
    (∀ f : ReservationFields, (convertToFirestore now f).updatedAt = some now ∧
      (f.createdAt = none → (convertToFirestore now f).createdAt = some now)) ∧
    (statusDataFields sd).createdAt = none ∧
    ∃ store2, updateReservationStatus (some a) store rid sd now = Except.ok store2 ∧
      ∃ r2, lookupReservation store2 rid = some r2 ∧
        r2.createdAt = now ∧ r2.updatedAt = now ∧ r2.status = sd.status := by
  refine ⟨fun f => ⟨rfl, fun hf => by simp [convertToFirestore, hf]⟩, rfl, ?_⟩
  have hchk := updateSecurityCheck_ok a store rid r hr (Or.inl hauth)
  refine ⟨updateStore store rid (convertToFirestore now (statusDataFields sd)),
    by rw [updateReservationStatus, updateReservation, hchk],
    applyFields r (convertToFirestore now (statusDataFields sd)), ?_, rfl, rfl, rfl⟩
  rw [lookupReservation_updateStore, hr]
  rfl

/-- C10 witness: a cancel by the record's student, on a record created at
time 5, performed at time 10: the written record carries
`createdAt = updatedAt = 10`, so the original creation timestamp 5 is
overwritten. -/
theorem C10_update_rewrites_createdAt_witness :
    (∀ f : ReservationFields, (convertToFirestore 10 f).updatedAt = some 10 ∧
      (f.createdAt = none → (convertToFirestore 10 f).createdAt = some 10)) ∧
    (statusDataFields
        (createUpdateReservationStatusData ReservationStatus.cancelled none 9)).createdAt =
      none ∧
    ∃ store2, updateReservationStatus (some ⟨"s1", some UserRole.student⟩)
        [("r1", ⟨"s1", "t1", "c1", ⟨2025, 9, 10⟩, hm 10 0, hm 11 0,
            ReservationStatus.confirmed, none, 5, 5⟩)] "r1"
        (createUpdateReservationStatusData ReservationStatus.cancelled none 9) 10 =
      Except.ok store2 ∧
      ∃ r2, lookupReservation store2 "r1" = some r2 ∧
        r2.createdAt = 10 ∧ r2.updatedAt = 10 ∧
        r2.status = (createUpdateReservationStatusData
          ReservationStatus.cancelled none 9).status :=
  C10_update_rewrites_createdAt ⟨"s1", some UserRole.student⟩
    [("r1", ⟨"s1", "t1", "c1", ⟨2025, 9, 10⟩, hm 10 0, hm 11 0,
        ReservationStatus.confirmed, none, 5, 5⟩)] "r1"
    ⟨"s1", "t1", "c1", ⟨2025, 9, 10⟩, hm 10 0, hm 11 0,
      ReservationStatus.confirmed, none, 5, 5⟩
    (createUpdateReservationStatusData ReservationStatus.cancelled none 9) 10 (by decide) rfl
